import Mathlib

/-!
Verification of the Spark-grblHAL EDM plugin (`Src/plugin_edm.c`) against its
natural-language specification.

Shallow embedding conventions:
* machine integers are `Nat` with an explicit `% 2 ^ w` where wrap-around
  matters (the `uint64_t` microsecond clock, the `uint32_t` poll counter);
* the I2C bus is nondeterministic from the plugin's point of view, so every
  operation takes the success/failure outcome of each of its transfers as an
  explicit argument (an oracle); a register is updated on the device only when
  the corresponding write transfer succeeded;
* every stateful operation additionally returns the ordered list of externally
  visible events it performs (register writes, block reads, gate line changes,
  alarm raises, chained-handler calls), so ordering claims are statable;
* the C `float` word values carried by a parser block are modelled as
  `Option Rat`, with `none` playing the role of NaN (every constant compared
  against in the source — 0, 1, 20, 95, 100, 1000 — is exactly representable,
  so the comparisons agree with the C ones on all inputs the claims range
  over).
-/

namespace SparkEDM

/-- Pulser register addresses (source lines 58–63). -/
def REG_POLARITY : Nat := 0x01

/-- Pulse current register address. -/
def REG_PULSE_CURRENT : Nat := 0x02

/-- Temperature register address (read by the status query). -/
def REG_TEMPERATURE : Nat := 0x03

/-- Pulse duration register address. -/
def REG_PULSE_DUR : Nat := 0x04

/-- Max duty register address. -/
def REG_MAX_DUTY : Nat := 0x05

/-- Base address of the 6-byte status block polled by `edm_realtime`. -/
def REG_CKP_N_PULSE : Nat := 0x10

/-- Capacity of the diagnostic ring buffer (`#define EDM_LOG_SIZE 10000`). -/
def EDM_LOG_SIZE : Nat := 10000

/-- Status flag bit recorded when the host is executing a system motion. -/
def ST_MOTION : Nat := 0x01

/-- Modulus of the C `uint64_t` type. -/
def U64_MOD : Nat := 2 ^ 64

/-- Modulus of the C `uint32_t` type. -/
def U32_MOD : Nat := 2 ^ 32

/-- Wrap-around subtraction of two `uint64_t` values, as performed by
`t_curr - last_poll_tick_us` in `edm_realtime`. -/
def u64_sub (a b : Nat) : Nat := (a % U64_MOD + (U64_MOD - b % U64_MOD)) % U64_MOD

/-- One diagnostic log record (`log_entry_t`, source lines 82–88). -/
structure log_entry_t where
  status_flags : Nat
  r_open : Nat
  r_short : Nat
  r_pulse : Nat
  n_pulse : Nat
deriving DecidableEq

instance : Inhabited log_entry_t := ⟨⟨0, 0, 0, 0, 0⟩⟩

/-- The ring-buffer log (`edm_log_t`, source lines 90–95).  The C array of
`EDM_LOG_SIZE` entries is modelled as a total function from slot index to
entry; only indices below `EDM_LOG_SIZE` are ever accessed. -/
structure edm_log_t where
  entries : Nat → log_entry_t
  ix_write : Nat
  num_valid : Nat
  active : Bool

/-- Reset of the log (`init_log`, source lines 99–103); the entries array is
static storage and hence zero-initialized at program start. -/
def init_log : edm_log_t :=
  { entries := fun _ => default, ix_write := 0, num_valid := 0, active := false }

/-- Append one entry (`add_log`, source lines 105–111): store at `ix_write`,
advance `ix_write` modulo the capacity, and saturate `num_valid` at the
capacity. -/
def add_log (lg : edm_log_t) (entry : log_entry_t) : edm_log_t :=
  { lg with
    entries := fun k => if k = lg.ix_write then entry else lg.entries k,
    ix_write := (lg.ix_write + 1) % EDM_LOG_SIZE,
    num_valid := if lg.num_valid < EDM_LOG_SIZE then lg.num_valid + 1 else lg.num_valid }

/-- Logging control (`exec_mode_log`, source lines 193–198): enabling resets
the log first; the active flag is then set to the request. -/
def exec_mode_log (lg : edm_log_t) (enable : Bool) : edm_log_t :=
  let lg' := if enable then init_log else lg
  { lg' with active := enable }

/-- First slot read back by `exec_mcode_read` (source line 157):
`(ix_write + EDM_LOG_SIZE - num_valid) % EDM_LOG_SIZE`. -/
def ix_read_start (lg : edm_log_t) : Nat :=
  (lg.ix_write + EDM_LOG_SIZE - lg.num_valid) % EDM_LOG_SIZE

/-- The sequence of log entries consumed by the read-out loop of
`exec_mcode_read` (source lines 155–190): `num_valid` entries starting at
`ix_read_start`, advancing modulo the capacity.  (The loop walks the ring in
groups of 20 per output line, but the entries it reads are exactly these, in
this order.) -/
def read_log_entries (lg : edm_log_t) : List log_entry_t :=
  (List.range lg.num_valid).map fun i => lg.entries ((ix_read_start lg + i) % EDM_LOG_SIZE)

/-- Guard of the log section of `exec_mcode_read` (source line 155): the log
is dumped only when requested and the log is not actively recording. -/
def read_log_output (print_log : Bool) (lg : edm_log_t) : Option (List log_entry_t) :=
  if print_log && !lg.active then some (read_log_entries lg) else none

/-- Quantization of a resistance-domain byte for log transmission
(source lines 179–180): `(v * 10) / 255` in C integer arithmetic. -/
def quantize_resistance (v : Nat) : Nat := (v * 10) / 255

/-- Appending a whole list of entries to a freshly reset log. -/
def append_all (l : List log_entry_t) : edm_log_t := l.foldl add_log init_log

/-- Semantic view of the writable pulser registers (device side). -/
structure DeviceRegs where
  polarity : Nat
  pulse_current : Nat
  pulse_dur : Nat
  max_duty : Nat
deriving DecidableEq

/-- Effect of a successful single-byte register write on the device. -/
def apply_write (r : DeviceRegs) (reg val : Nat) : DeviceRegs :=
  if reg = REG_POLARITY then { r with polarity := val }
  else if reg = REG_PULSE_CURRENT then { r with pulse_current := val }
  else if reg = REG_PULSE_DUR then { r with pulse_dur := val }
  else if reg = REG_MAX_DUTY then { r with max_duty := val }
  else r

/-- Externally visible events performed by the plugin, in program order. -/
inductive BusEvent where
  | writeReg (reg val : Nat) (ok : Bool)
  | readBlock (reg count : Nat) (ok : Bool)
  | setGate (level : Bool)
  | raiseAlarm
  | callChain
deriving DecidableEq

/-- Mutable state of the plugin plus the device registers and gate line it
drives (the module-level `static volatile` variables of the source, lines
70–97, together with the device they control). -/
structure EdmState where
  regs : DeviceRegs
  gate : Bool
  alarm : Bool
  edm_init_status : Nat
  edm_poll_cnt : Nat
  edm_has_current : Bool
  last_poll_tick_us : Nat
  discharge_short : Bool
  log : edm_log_t

/-- State effect of `write_reg` (source lines 202–211) given the transfer
outcome `ok`: the device register changes only when the transfer succeeded. -/
def write_reg_upd (s : EdmState) (reg_addr val : Nat) (ok : Bool) : EdmState :=
  if ok then { s with regs := apply_write s.regs reg_addr val } else s

/-- Energize (`exec_mcode_start`, source lines 228–242): write the four
registers in the fixed order current, duration, duty, polarity (each write is
attempted regardless of earlier failures, as `all_ok &= write_reg(...)` never
short-circuits), then assert the gate only if all four writes succeeded;
otherwise raise the self-test alarm and return without touching the gate. -/
def exec_mcode_start (s : EdmState) (tool_neg : Bool)
    (pulse_dur_10us pulse_current_100ma pulse_duty_pct : Nat)
    (ok1 ok2 ok3 ok4 : Bool) : EdmState × List BusEvent :=
  let pol : Nat := if tool_neg then 2 else 1
  let s1 := write_reg_upd s REG_PULSE_CURRENT pulse_current_100ma ok1
  let s2 := write_reg_upd s1 REG_PULSE_DUR pulse_dur_10us ok2
  let s3 := write_reg_upd s2 REG_MAX_DUTY pulse_duty_pct ok3
  let s4 := write_reg_upd s3 REG_POLARITY pol ok4
  let evs := [BusEvent.writeReg REG_PULSE_CURRENT pulse_current_100ma ok1,
              BusEvent.writeReg REG_PULSE_DUR pulse_dur_10us ok2,
              BusEvent.writeReg REG_MAX_DUTY pulse_duty_pct ok3,
              BusEvent.writeReg REG_POLARITY pol ok4]
  if ok1 && ok2 && ok3 && ok4 then
    ({ s4 with gate := true }, evs ++ [BusEvent.setGate true])
  else
    ({ s4 with alarm := true }, evs ++ [BusEvent.raiseAlarm])

/-- De-energize (`exec_mcode_stop`, source lines 245–253): de-assert the gate
first, then write Polarity = Off (0); a failed write raises the self-test
alarm but the gate stays de-asserted. -/
def exec_mcode_stop (s : EdmState) (ok : Bool) : EdmState × List BusEvent :=
  let s1 := { s with gate := false }
  let s2 := write_reg_upd s1 REG_POLARITY 0 ok
  let evs := [BusEvent.setGate false, BusEvent.writeReg REG_POLARITY 0 ok]
  if ok then (s2, evs) else ({ s2 with alarm := true }, evs ++ [BusEvent.raiseAlarm])

/-- Probe-cycle completion handler (`edm_probe_completed`, source lines
381–395): gate off, Polarity = Off, then — only if the write succeeded —
delegate to the previously chained handler when one is registered
(`chained`). -/
def edm_probe_completed (s : EdmState) (ok chained : Bool) : EdmState × List BusEvent :=
  let s1 := { s with gate := false }
  let s2 := write_reg_upd s1 REG_POLARITY 0 ok
  let evs := [BusEvent.setGate false, BusEvent.writeReg REG_POLARITY 0 ok]
  if ok then
    if chained then (s2, evs ++ [BusEvent.callChain]) else (s2, evs)
  else ({ s2 with alarm := true }, evs ++ [BusEvent.raiseAlarm])

/-- Host probe-state record (`probe_state_t` fields used by the plugin). -/
structure probe_state_t where
  triggered : Bool
  connected : Bool
deriving DecidableEq

/-- Virtual probe query (`edm_probe_get_state`, source lines 413–418):
triggered mirrors `edm_has_current`, connected is always true. -/
def edm_probe_get_state (edm_has_current : Bool) : probe_state_t :=
  { triggered := edm_has_current, connected := true }

/-- The 6 bytes read from the status block starting at `REG_CKP_N_PULSE`. -/
structure StatusBuf where
  b0 : Nat
  b1 : Nat
  b2 : Nat
  b3 : Nat
  b4 : Nat
  b5 : Nat
deriving DecidableEq

/-- The poll hook (`edm_realtime`, source lines 425–472), minus the chaining
to the previously registered realtime handler (which does not touch this
plugin's state).  `t_curr` is the value of `hal.get_micros()`, `motion` the
host's `sys.step_control.execute_sys_motion` flag, and `xfer` the outcome of
the 6-byte status transfer (`none` = transfer failed).  Note the order in the
source: the rate-limit timestamp is updated before the transfer is attempted,
and a failed transfer returns early, after the timestamp update. -/
def edm_realtime (s : EdmState) (t_curr : Nat) (motion : Bool)
    (xfer : Option StatusBuf) : EdmState × List BusEvent :=
  if u64_sub t_curr s.last_poll_tick_us < 1000 then (s, [])
  else
    let sa := { s with last_poll_tick_us := t_curr }
    match xfer with
    | none => (sa, [BusEvent.readBlock REG_CKP_N_PULSE 6 false])
    | some buf =>
      let n_pulse := buf.b0
      let r_pulse := buf.b3
      let r_short := buf.b4
      let r_open := buf.b5
      let sb := { sa with edm_has_current := decide (0 < r_pulse) || decide (0 < r_short) }
      let sc := if 127 < r_short then { sb with discharge_short := true } else sb
      let entry : log_entry_t :=
        { status_flags := if motion then ST_MOTION else 0,
          r_open := r_open, r_short := r_short,
          r_pulse := r_pulse, n_pulse := n_pulse }
      let sd := if sc.log.active then { sc with log := add_log sc.log entry } else sc
      ({ sd with edm_poll_cnt := (sd.edm_poll_cnt + 1) % U32_MOD },
       [BusEvent.readBlock REG_CKP_N_PULSE 6 true])

/-- M-code numbers handled by the plugin (source lines 44–48). -/
def EDM_MCODE_START_TNEG : Nat := 503

/-- M-code number for the tool-positive start command. -/
def EDM_MCODE_START_TPOS : Nat := 504

/-- M-code number for the stop command. -/
def EDM_MCODE_STOP : Nat := 505

/-- M-code number for the status/read command. -/
def EDM_MCODE_READ : Nat := 550

/-- M-code number for the logging-control command. -/
def EDM_MCODE_LOG : Nat := 551

/-- Membership test (`is_edm_mcode`, source lines 255–259). -/
def is_edm_mcode (m : Nat) : Bool :=
  m == EDM_MCODE_READ || m == EDM_MCODE_START_TNEG || m == EDM_MCODE_START_TPOS
    || m == EDM_MCODE_STOP || m == EDM_MCODE_LOG

/-- The word-present bits of a parser block used by the plugin; `other`
stands for every remaining bit of `words.mask`. -/
structure ParserWords where
  s : Bool
  p : Bool
  q : Bool
  r : Bool
  other : Bool
deriving DecidableEq

/-- The C test `block->words.mask != 0`. -/
def ParserWords.mask_ne_zero (w : ParserWords) : Bool :=
  w.s || w.p || w.q || w.r || w.other

/-- Parsed word values; `none` models NaN (`isnan(v)` in the source). -/
structure ParserValues where
  s : Option Rat
  p : Option Rat
  q : Option Rat
  r : Option Rat
deriving DecidableEq

/-- The parser-block fields read or written by `mcode_validate`. -/
structure parser_block_t where
  user_mcode : Nat
  words : ParserWords
  values : ParserValues
  user_mcode_sync : Bool
deriving DecidableEq

/-- The grblHAL status codes returned by the plugin's validator. -/
inductive status_code_t where
  | Status_OK
  | Status_Unhandled
  | Status_GcodeValueWordMissing
  | Status_GcodeValueOutOfRange
  | Status_GcodeUnusedWords
  | Status_SelfTestFailed
deriving DecidableEq

/-- Validation (`mcode_validate`, source lines 270–339).  The function is
pure: it performs no bus transfer and touches no plugin state; it returns the
status code together with the (possibly word-cleared) block.  Unrecognized
codes are forwarded to the previously registered validator; that chaining is
modelled as `Status_Unhandled` here since no other handler is part of this
repository. -/
def mcode_validate (edm_init_status : Nat) (block : parser_block_t) :
    status_code_t × parser_block_t :=
  let code := block.user_mcode
  if ¬ is_edm_mcode code then (status_code_t.Status_Unhandled, block)
  else if code = EDM_MCODE_READ then
    let b1 := if block.words.s then
        { block with words := { block.words with s := false } } else block
    (status_code_t.Status_OK, { b1 with user_mcode_sync := true })
  else if code = EDM_MCODE_LOG then
    if ¬ block.words.s then (status_code_t.Status_GcodeValueWordMissing, block)
    else
      match block.values.s with
      | none => (status_code_t.Status_GcodeValueOutOfRange, block)
      | some v =>
        if v ≠ 0 ∧ v ≠ 1 then (status_code_t.Status_GcodeValueOutOfRange, block)
        else
          (status_code_t.Status_OK,
           { block with words := { block.words with s := false }, user_mcode_sync := true })
  else if code = EDM_MCODE_STOP then
    if block.words.mask_ne_zero then (status_code_t.Status_GcodeUnusedWords, block)
    else if edm_init_status ≠ 0 then (status_code_t.Status_SelfTestFailed, block)
    else (status_code_t.Status_OK, { block with user_mcode_sync := true })
  else
    -- start commands (M503/M504): range-check each present word in turn
    if block.words.p && (match block.values.p with
        | none => true
        | some v => decide (v < 100) || decide (1000 < v)) then
      (status_code_t.Status_GcodeValueOutOfRange, block)
    else
      let b1 := if block.words.p then
          { block with words := { block.words with p := false } } else block
      if b1.words.q && (match b1.values.q with
          | none => true
          | some v => decide (v < 0) || decide (20 < v)) then
        (status_code_t.Status_GcodeValueOutOfRange, b1)
      else
        let b2 := if b1.words.q then
            { b1 with words := { b1.words with q := false } } else b1
        if b2.words.r && (match b2.values.r with
            | none => true
            | some v => decide (v < 1) || decide (95 < v)) then
          (status_code_t.Status_GcodeValueOutOfRange, b2)
        else
          let b3 := if b2.words.r then
              { b2 with words := { b2.words with r := false } } else b2
          if edm_init_status ≠ 0 then (status_code_t.Status_SelfTestFailed, b3)
          else (status_code_t.Status_OK, { b3 with user_mcode_sync := true })

/-- The status line assembled by `exec_mcode_read` (source lines 137–153).
The field widths that occur (status ≤ 3 digits, temperature ≤ 3, polls ≤ 10,
log count ≤ 5, step frequency ≤ 10) always fit the 100-byte buffer, so the
`snprintf` truncation never fires for this line; the trailing `ASCII_EOL`
constant comes from a host header and is elided. -/
def edm_status_line (edm_init_status : Nat) (temp_read : Option Nat)
    (edm_poll_cnt : Nat) (log_num_valid : Nat) (f_step_timer : Nat) : String :=
  "[EDM|stat=" ++ toString edm_init_status ++ "," ++
    ((match temp_read with
      | some temp => "i2c=ok,temp=" ++ toString temp
      | none => "i2c=fail") ++
     ",polls=" ++ toString edm_poll_cnt ++ ",log=" ++ toString log_num_valid ++
     ",F(step)=" ++ toString f_step_timer ++ "Hz]")

/-- Device registers all zero, for concrete evaluations. -/
def demo_regs : DeviceRegs :=
  { polarity := 0, pulse_current := 0, pulse_dur := 0, max_duty := 0 }

/-- Plugin state right after a successful `edm_init`. -/
def demo_state : EdmState :=
  { regs := demo_regs, gate := false, alarm := false, edm_init_status := 0,
    edm_poll_cnt := 0, edm_has_current := false, last_poll_tick_us := 0,
    discharge_short := false, log := init_log }

/-- The same state with the pulser already energized (gate asserted), as left
by a previous successful start command. -/
def demo_state_energized : EdmState := { demo_state with gate := true }

/-- A concrete status-block sample with nonzero `r_pulse`. -/
def demo_buf : StatusBuf := { b0 := 1, b1 := 0, b2 := 0, b3 := 5, b4 := 0, b5 := 2 }

/-- No word bits set. -/
def no_words : ParserWords := { s := false, p := false, q := false, r := false, other := false }

/-- No parsed word values. -/
def no_values : ParserValues := { s := none, p := none, q := none, r := none }

/-- `M503 Q25`: a start command with a 25 A pulse current. -/
def block_start_q25 : parser_block_t :=
  { user_mcode := EDM_MCODE_START_TNEG,
    words := { no_words with q := true },
    values := { no_values with q := some 25 },
    user_mcode_sync := false }

/-- `M503 R0`: a start command with duty 0. -/
def block_start_r0 : parser_block_t :=
  { user_mcode := EDM_MCODE_START_TNEG,
    words := { no_words with r := true },
    values := { no_values with r := some 0 },
    user_mcode_sync := false }

/-- `M505 P1`: a stop command carrying a parameter word. -/
def block_stop_with_word : parser_block_t :=
  { user_mcode := EDM_MCODE_STOP,
    words := { no_words with p := true },
    values := { no_values with p := some 1 },
    user_mcode_sync := false }

/-- `M505` with no words. -/
def block_stop_plain : parser_block_t :=
  { user_mcode := EDM_MCODE_STOP, words := no_words, values := no_values,
    user_mcode_sync := false }

/-- `M503` with no words (all defaults). -/
def block_start_plain : parser_block_t :=
  { user_mcode := EDM_MCODE_START_TNEG, words := no_words, values := no_values,
    user_mcode_sync := false }

/-- `M550` with no words. -/
def block_read_plain : parser_block_t :=
  { user_mcode := EDM_MCODE_READ, words := no_words, values := no_values,
    user_mcode_sync := false }

/-! Helper lemmas: `write_reg` never touches the plugin-side state other than
the device registers. -/

@[simp]
theorem write_reg_upd_gate (s : EdmState) (reg val : Nat) (ok : Bool) :
    (write_reg_upd s reg val ok).gate = s.gate := by
  unfold write_reg_upd; split <;> rfl

@[simp]
theorem write_reg_upd_alarm (s : EdmState) (reg val : Nat) (ok : Bool) :
    (write_reg_upd s reg val ok).alarm = s.alarm := by
  unfold write_reg_upd; split <;> rfl

@[simp]
theorem write_reg_upd_has_current (s : EdmState) (reg val : Nat) (ok : Bool) :
    (write_reg_upd s reg val ok).edm_has_current = s.edm_has_current := by
  unfold write_reg_upd; split <;> rfl

@[simp]
theorem write_reg_upd_log (s : EdmState) (reg val : Nat) (ok : Bool) :
    (write_reg_upd s reg val ok).log = s.log := by
  unfold write_reg_upd; split <;> rfl

/-- C6 counterexample: the readout quantization `(v * 10) / 255` sends the top
byte value 255 to 10, not to 9 as the claim states. -/
theorem quantize_top_of_range_counterexample :
    quantize_resistance 255 = 10 ∧ quantize_resistance 255 ≠ 9 := by decide

/-- C6 (amended): for every resistance-domain byte below the top, the readout
quantization `(v * 10) / 255` yields a single decimal digit 0–9; the top
value 255 maps to 10 (two digits), slightly over-representing the top of the
range. -/
theorem quantize_single_digit_below_top :
    (∀ v : Nat, v ≤ 254 → quantize_resistance v ≤ 9) ∧ quantize_resistance 255 = 10 := by
  constructor
  · intro v hv
    unfold quantize_resistance
    omega
  · rfl

/-- C6 witness: the amended bound evaluated at v = 254. -/
theorem quantize_single_digit_below_top_witness :
    254 ≤ 254 ∧ quantize_resistance 254 ≤ 9 :=
  ⟨le_refl 254, quantize_single_digit_below_top.1 254 (by decide)⟩

/-- C8: a start command with current 25 A is rejected out-of-range with the
block unchanged, a start command with duty 0 is rejected out-of-range with
the block unchanged, and a stop command carrying any parameter word is
rejected with the unused-words status with the block unchanged — in every
case during validation, whatever the init status, and `mcode_validate`
performs no bus transfer and touches no plugin state by construction. -/
theorem validate_range_rejections :
    (∀ init : Nat,
      (mcode_validate init block_start_q25).1 = status_code_t.Status_GcodeValueOutOfRange) ∧
    (∀ init : Nat, (mcode_validate init block_start_q25).2 = block_start_q25) ∧
    (∀ init : Nat,
      (mcode_validate init block_start_r0).1 = status_code_t.Status_GcodeValueOutOfRange) ∧
    (∀ init : Nat, (mcode_validate init block_start_r0).2 = block_start_r0) ∧
    (∀ (init : Nat) (b : parser_block_t), b.user_mcode = EDM_MCODE_STOP →
      b.words.mask_ne_zero = true →
      (mcode_validate init b).1 = status_code_t.Status_GcodeUnusedWords ∧
      (mcode_validate init b).2 = b) := by
  refine ⟨fun init => rfl, fun init => rfl, fun init => rfl, fun init => rfl, ?_⟩
  intro init b hb hm
  simp [mcode_validate, hb, hm, is_edm_mcode, EDM_MCODE_STOP, EDM_MCODE_READ, EDM_MCODE_LOG]

/-- C8 witness: the general unused-words branch evaluated on `M505 P1`. -/
theorem validate_range_rejections_witness :
    block_stop_with_word.user_mcode = EDM_MCODE_STOP ∧
    block_stop_with_word.words.mask_ne_zero = true ∧
    (mcode_validate 0 block_stop_with_word).1 = status_code_t.Status_GcodeUnusedWords :=
  ⟨rfl, rfl, (validate_range_rejections.2.2.2.2 0 block_stop_with_word rfl rfl).1⟩

/-- C9: on probe-cycle completion the gate is de-asserted first and
Polarity = Off is written second; any delegation to the previously chained
completion handler happens strictly after both (and, when the write
succeeded and a handler is registered, it does happen); the gate ends
de-asserted in every case, so the tool is never left energized after a
probing motion. -/
theorem probe_completed_deenergizes_before_chain (s : EdmState) (ok chained : Bool) :
    (edm_probe_completed s ok chained).1.gate = false ∧
    (ok = true → (edm_probe_completed s ok chained).1.regs.polarity = 0) ∧
    (edm_probe_completed s ok chained).2.take 2 =
      [BusEvent.setGate false, BusEvent.writeReg REG_POLARITY 0 ok] ∧
    (ok = true → chained = true → (edm_probe_completed s ok chained).2 =
      [BusEvent.setGate false, BusEvent.writeReg REG_POLARITY 0 true, BusEvent.callChain]) ∧
    (ok = false → (edm_probe_completed s ok chained).2 =
      [BusEvent.setGate false, BusEvent.writeReg REG_POLARITY 0 false, BusEvent.raiseAlarm]) := by
  cases ok <;> cases chained <;>
    simp [edm_probe_completed, write_reg_upd, apply_write, REG_POLARITY]

/-- C9 witness: successful write with a chained handler registered. -/
theorem probe_completed_deenergizes_before_chain_witness :
    (edm_probe_completed demo_state_energized true true).2 =
      [BusEvent.setGate false, BusEvent.writeReg REG_POLARITY 0 true, BusEvent.callChain] :=
  (probe_completed_deenergizes_before_chain demo_state_energized true true).2.2.2.1 rfl rfl

/-- C1 counterexample: starting from an already-energized state (gate
asserted), a start invocation whose first register write fails raises the
alarm but leaves the gate asserted — the pulser stays energized, contradicting
the claim that the gate is left de-asserted regardless of prior state. -/
theorem start_failure_leaves_gate_energized_counterexample :
    (exec_mcode_start demo_state_energized true 50 10 25 false true true true).1.gate = true ∧
    (exec_mcode_start demo_state_energized true 50 10 25 false true true true).1.alarm = true ∧
    demo_state_energized.gate = true :=
  ⟨rfl, rfl, rfl⟩

/-- C1 (amended): every start invocation writes the four registers in the
fixed order pulse-current, pulse-duration, max-duty, polarity (each write is
attempted regardless of earlier outcomes), and the gate is asserted only if
all four writes succeeded; if any write fails, a fatal self-test alarm is
raised and the gate is left unchanged — so a pulser that was idle before the
call stays de-asserted and the state remains Idle, but one that was already
energized remains energized. -/
theorem start_fixed_order_gate_only_on_success (s : EdmState) (tool_neg : Bool)
    (dur cur duty : Nat) (ok1 ok2 ok3 ok4 : Bool) :
    (exec_mcode_start s tool_neg dur cur duty ok1 ok2 ok3 ok4).2 =
      [BusEvent.writeReg REG_PULSE_CURRENT cur ok1,
       BusEvent.writeReg REG_PULSE_DUR dur ok2,
       BusEvent.writeReg REG_MAX_DUTY duty ok3,
       BusEvent.writeReg REG_POLARITY (if tool_neg then 2 else 1) ok4] ++
      (if ok1 && ok2 && ok3 && ok4 then [BusEvent.setGate true] else [BusEvent.raiseAlarm]) ∧
    ((ok1 && ok2 && ok3 && ok4) = true →
      (exec_mcode_start s tool_neg dur cur duty ok1 ok2 ok3 ok4).1.gate = true ∧
      (exec_mcode_start s tool_neg dur cur duty ok1 ok2 ok3 ok4).1.alarm = s.alarm) ∧
    ((ok1 && ok2 && ok3 && ok4) = false →
      (exec_mcode_start s tool_neg dur cur duty ok1 ok2 ok3 ok4).1.gate = s.gate ∧
      (exec_mcode_start s tool_neg dur cur duty ok1 ok2 ok3 ok4).1.alarm = true) := by
  cases h : (ok1 && ok2 && ok3 && ok4) <;> simp [exec_mcode_start, h]

/-- C1 witness: all four writes succeed from the idle state and the gate ends
asserted. -/
theorem start_fixed_order_gate_only_on_success_witness :
    ((true && true && true && true) = true) ∧
    (exec_mcode_start demo_state true 50 10 25 true true true true).1.gate = true :=
  ⟨rfl, ((start_fixed_order_gate_only_on_success demo_state true 50 10 25
      true true true true).2.1 rfl).1⟩

/-- C5: for parameters in their device-native documented ranges, start
followed immediately by stop leaves the gate de-asserted from any prior
state — unconditionally, even when the stop write fails — the Polarity
register is Off whenever the stop write succeeded, and the stop trace
de-asserts the gate strictly before writing Polarity = Off. -/
theorem start_then_stop_deenergized (s : EdmState) (tool_neg : Bool)
    (dur cur duty : Nat)
    (hdur1 : 10 ≤ dur) (hdur2 : dur ≤ 100)
    (hcur1 : 1 ≤ cur) (hcur2 : cur ≤ 200)
    (hduty1 : 1 ≤ duty) (hduty2 : duty ≤ 95)
    (ok1 ok2 ok3 ok4 ok5 : Bool) :
    (exec_mcode_stop (exec_mcode_start s tool_neg dur cur duty ok1 ok2 ok3 ok4).1 ok5).1.gate
        = false ∧
    (ok5 = true →
      (exec_mcode_stop (exec_mcode_start s tool_neg dur cur duty ok1 ok2 ok3 ok4).1
          ok5).1.regs.polarity = 0) ∧
    (exec_mcode_stop (exec_mcode_start s tool_neg dur cur duty ok1 ok2 ok3 ok4).1 ok5).2 =
      [BusEvent.setGate false, BusEvent.writeReg REG_POLARITY 0 ok5] ++
        (if ok5 then [] else [BusEvent.raiseAlarm]) := by
  cases ok5 <;> simp [exec_mcode_stop, write_reg_upd, apply_write, REG_POLARITY]

/-- C5 witness: the defaults `M503` then `M505`, all transfers succeeding,
from an energized prior state. -/
theorem start_then_stop_deenergized_witness :
    (10 ≤ 50 ∧ 50 ≤ 100 ∧ 1 ≤ 10 ∧ 10 ≤ 200 ∧ 1 ≤ 25 ∧ 25 ≤ 95) ∧
    (exec_mcode_stop (exec_mcode_start demo_state_energized true 50 10 25
        true true true true).1 true).1.gate = false :=
  ⟨by decide,
   (start_then_stop_deenergized demo_state_energized true 50 10 25 (by decide) (by decide)
      (by decide) (by decide) (by decide) (by decide) true true true true true).1⟩

/-! Helper lemmas about the poll hook. -/

theorem edm_realtime_not_due (s : EdmState) (t : Nat) (m : Bool) (x : Option StatusBuf)
    (h : u64_sub t s.last_poll_tick_us < 1000) : edm_realtime s t m x = (s, []) := by
  unfold edm_realtime
  rw [if_pos h]

theorem edm_realtime_failed (s : EdmState) (t : Nat) (m : Bool)
    (h : 1000 ≤ u64_sub t s.last_poll_tick_us) :
    edm_realtime s t m none =
      ({ s with last_poll_tick_us := t }, [BusEvent.readBlock REG_CKP_N_PULSE 6 false]) := by
  unfold edm_realtime
  rw [if_neg (by omega)]

theorem edm_realtime_due_last (s : EdmState) (t : Nat) (m : Bool) (x : Option StatusBuf)
    (h : 1000 ≤ u64_sub t s.last_poll_tick_us) :
    (edm_realtime s t m x).1.last_poll_tick_us = t := by
  unfold edm_realtime
  rw [if_neg (by omega)]
  cases x with
  | none => rfl
  | some buf =>
    dsimp only
    split <;> split <;> rfl

/-- C2: on a due poll tick whose 6-byte status transfer succeeds, the
current-flowing flag is set to `r_pulse > 0 || r_short > 0` computed from the
bytes of that sample (offsets 3 and 4 of the block); on a due tick whose
transfer fails, the flag, the log and the poll counter are all left
unchanged. -/
theorem poll_sets_current_flag_from_sample (s : EdmState) (t : Nat) (motion : Bool)
    (buf : StatusBuf) (hdue : 1000 ≤ u64_sub t s.last_poll_tick_us) :
    (edm_realtime s t motion (some buf)).1.edm_has_current =
      (decide (0 < buf.b3) || decide (0 < buf.b4)) ∧
    (edm_realtime s t motion none).1.edm_has_current = s.edm_has_current ∧
    (edm_realtime s t motion none).1.log = s.log ∧
    (edm_realtime s t motion none).1.edm_poll_cnt = s.edm_poll_cnt := by
  refine ⟨?_, ?_, ?_, ?_⟩
  · unfold edm_realtime
    rw [if_neg (by omega)]
    dsimp only
    split <;> split <;> rfl
  all_goals rw [edm_realtime_failed s t motion hdue]

/-- C2 witness: a due tick at t = 1500 µs with `r_pulse = 5`. -/
theorem poll_sets_current_flag_from_sample_witness :
    1000 ≤ u64_sub 1500 demo_state.last_poll_tick_us ∧
    (edm_realtime demo_state 1500 false (some demo_buf)).1.edm_has_current =
      (decide (0 < demo_buf.b3) || decide (0 < demo_buf.b4)) :=
  ⟨by decide, (poll_sets_current_flag_from_sample demo_state 1500 false demo_buf (by decide)).1⟩

/-- C3 counterexample: the poll invocations at t = 999 µs and t = 1500 µs
(from the initial state, last poll stamp 0) are separated by 501 µs — less
than 1000 µs — yet the second one performs the status-block register access,
because the first was itself rate-limited and hence did not advance the
rate-limit stamp.  The universally quantified claim over every invocation
pair is therefore false on the code. -/
theorem rate_limit_pair_counterexample :
    u64_sub 1500 999 < 1000 ∧
    edm_realtime demo_state 999 false (some demo_buf) = (demo_state, []) ∧
    (edm_realtime (edm_realtime demo_state 999 false (some demo_buf)).1
        1500 false (some demo_buf)).2 = [BusEvent.readBlock REG_CKP_N_PULSE 6 true] :=
  ⟨by decide, rfl, rfl⟩

/-- C3 (amended): a rate-limited tick is a complete no-op (state unchanged,
no register access, no event at all), and every invocation within less than
1000 µs of device time after a tick that passed the rate limit is such a
no-op; consequently any two consecutive polls that do perform work are
separated by at least 1000 µs. -/
theorem rate_limited_tick_noop (s : EdmState) (t1 t2 : Nat) (m1 m2 : Bool)
    (x1 x2 : Option StatusBuf)
    (hdue : 1000 ≤ u64_sub t1 s.last_poll_tick_us)
    (hclose : u64_sub t2 t1 < 1000) :
    (∀ (s0 : EdmState) (t : Nat) (m : Bool) (x : Option StatusBuf),
      u64_sub t s0.last_poll_tick_us < 1000 → edm_realtime s0 t m x = (s0, [])) ∧
    edm_realtime (edm_realtime s t1 m1 x1).1 t2 m2 x2 = ((edm_realtime s t1 m1 x1).1, []) := by
  refine ⟨fun s0 t m x h => edm_realtime_not_due s0 t m x h, ?_⟩
  have hlast := edm_realtime_due_last s t1 m1 x1 hdue
  exact edm_realtime_not_due _ t2 m2 x2 (by rw [hlast]; exact hclose)

/-- C3 witness: a due tick at 1200 µs followed by an invocation at 1500 µs. -/
theorem rate_limited_tick_noop_witness :
    (1000 ≤ u64_sub 1200 demo_state.last_poll_tick_us ∧ u64_sub 1500 1200 < 1000) ∧
    edm_realtime (edm_realtime demo_state 1200 false (some demo_buf)).1
        1500 false (some demo_buf) =
      ((edm_realtime demo_state 1200 false (some demo_buf)).1, []) :=
  ⟨⟨by decide, by decide⟩,
   (rate_limited_tick_noop demo_state 1200 1500 false false (some demo_buf) (some demo_buf)
      (by decide) (by decide)).2⟩

/-- C10: the poll hook stamps `last_poll_tick_us` before attempting the
transfer, so a due tick whose transfer fails still consumes the 1000 µs
rate-limit window: afterwards the stamp equals the failed tick's time, the
current-flowing flag is stale (unchanged), and every invocation within less
than 1000 µs of the failed attempt is a complete no-op — no new transfer is
attempted and the flag stays stale throughout that window. -/
theorem failed_poll_consumes_rate_window (s : EdmState) (t1 : Nat) (m1 : Bool)
    (hdue : 1000 ≤ u64_sub t1 s.last_poll_tick_us) :
    (edm_realtime s t1 m1 none).1.last_poll_tick_us = t1 ∧
    (edm_realtime s t1 m1 none).1.edm_has_current = s.edm_has_current ∧
    (edm_realtime s t1 m1 none).2 = [BusEvent.readBlock REG_CKP_N_PULSE 6 false] ∧
    (∀ (t2 : Nat) (m2 : Bool) (x2 : Option StatusBuf), u64_sub t2 t1 < 1000 →
      edm_realtime (edm_realtime s t1 m1 none).1 t2 m2 x2 =
        ((edm_realtime s t1 m1 none).1, [])) := by
  refine ⟨edm_realtime_due_last s t1 m1 none hdue, ?_, ?_, ?_⟩
  · rw [edm_realtime_failed s t1 m1 hdue]
  · rw [edm_realtime_failed s t1 m1 hdue]
  · intro t2 m2 x2 hclose
    exact edm_realtime_not_due _ t2 m2 x2
      (by rw [edm_realtime_due_last s t1 m1 none hdue]; exact hclose)

/-- C10 witness: a failed transfer at 1200 µs, then an invocation at 1500 µs. -/
theorem failed_poll_consumes_rate_window_witness :
    (1000 ≤ u64_sub 1200 demo_state.last_poll_tick_us ∧ u64_sub 1500 1200 < 1000) ∧
    edm_realtime (edm_realtime demo_state 1200 false none).1 1500 false (some demo_buf) =
      ((edm_realtime demo_state 1200 false none).1, []) :=
  ⟨⟨by decide, by decide⟩,
   (failed_poll_consumes_rate_window demo_state 1200 false (by decide)).2.2.2
      1500 false (some demo_buf) (by decide)⟩

/-- Helper: a word that is absent, or present with an in-range value, never
trips the corresponding range guard of the start-command validator. -/
theorem start_word_guard_false (w : Bool) (v : Option Rat) (lo hi : Rat) :
    (w = true → ∃ x, v = some x ∧ lo ≤ x ∧ x ≤ hi) →
    (w && (match v with
      | none => true
      | some x => decide (x < lo) || decide (hi < x))) = false := by
  cases w with
  | false => intro h; rfl
  | true =>
    intro h
    obtain ⟨x, hx, h1, h2⟩ := h rfl
    rw [hx]
    simp only [Bool.true_and, Bool.or_eq_false_iff, decide_eq_false_iff_not, not_lt]
    exact ⟨h1, h2⟩

/-- C7: whenever the recorded init status is nonzero, a stop command with no
words and a start command whose present words are in range are both rejected
at validation time with the self-test-failed status (validation performs no
bus transfer and touches no plugin state by construction); the status query
still validates OK, its response line reports the nonzero init code, and the
virtual probe still reports connected = true. -/
theorem init_failure_rejects_start_stop (init : Nat) (hinit : init ≠ 0) :
    (∀ b : parser_block_t, b.user_mcode = EDM_MCODE_STOP → b.words.mask_ne_zero = false →
      (mcode_validate init b).1 = status_code_t.Status_SelfTestFailed) ∧
    (∀ b : parser_block_t,
      (b.user_mcode = EDM_MCODE_START_TNEG ∨ b.user_mcode = EDM_MCODE_START_TPOS) →
      (b.words.p = true → ∃ x, b.values.p = some x ∧ 100 ≤ x ∧ x ≤ 1000) →
      (b.words.q = true → ∃ x, b.values.q = some x ∧ 0 ≤ x ∧ x ≤ 20) →
      (b.words.r = true → ∃ x, b.values.r = some x ∧ 1 ≤ x ∧ x ≤ 95) →
      (mcode_validate init b).1 = status_code_t.Status_SelfTestFailed) ∧
    (∀ b : parser_block_t, b.user_mcode = EDM_MCODE_READ →
      (mcode_validate init b).1 = status_code_t.Status_OK) ∧
    (∀ (temp : Option Nat) (polls logn fstep : Nat), ∃ rest,
      edm_status_line init temp polls logn fstep =
        "[EDM|stat=" ++ toString init ++ "," ++ rest) ∧
    (∀ c : Bool, (edm_probe_get_state c).connected = true) := by
  refine ⟨?_, ?_, ?_, ?_, fun c => rfl⟩
  · intro b hb hm
    simp [mcode_validate, hb, hm, is_edm_mcode, EDM_MCODE_STOP, EDM_MCODE_READ,
      EDM_MCODE_LOG, hinit]
  · intro b hcode hp hq hr
    have gp := start_word_guard_false b.words.p b.values.p 100 1000 hp
    have gq := start_word_guard_false b.words.q b.values.q 0 20 hq
    have gr := start_word_guard_false b.words.r b.values.r 1 95 hr
    obtain ⟨code, w, v, sync⟩ := b
    obtain ⟨ws, wp, wq, wr, wo⟩ := w
    rcases hcode with h | h <;> subst h <;>
      cases wp <;> cases wq <;> cases wr <;>
        simp_all [mcode_validate, is_edm_mcode, EDM_MCODE_READ, EDM_MCODE_LOG,
          EDM_MCODE_STOP, EDM_MCODE_START_TNEG, EDM_MCODE_START_TPOS, hinit]
  · intro b hb
    simp [mcode_validate, hb, is_edm_mcode, EDM_MCODE_READ]
  · intro temp polls logn fstep
    exact ⟨_, rfl⟩

/-- C7 witness: init status 7 with the plain stop and start blocks. -/
theorem init_failure_rejects_start_stop_witness :
    (7 : Nat) ≠ 0 ∧
    (mcode_validate 7 block_stop_plain).1 = status_code_t.Status_SelfTestFailed ∧
    (mcode_validate 7 block_start_plain).1 = status_code_t.Status_SelfTestFailed :=
  ⟨by decide,
   (init_failure_rejects_start_stop 7 (by decide)).1 block_stop_plain rfl rfl,
   (init_failure_rejects_start_stop 7 (by decide)).2.1 block_start_plain (Or.inl rfl)
     (fun h => absurd h (by decide)) (fun h => absurd h (by decide))
     (fun h => absurd h (by decide))⟩

/-! Ring-buffer development for the diagnostic log. -/

theorem log_size_eq : EDM_LOG_SIZE = 10000 := rfl

theorem append_all_snoc (l : List log_entry_t) (e : log_entry_t) :
    append_all (l ++ [e]) = add_log (append_all l) e := by
  simp [append_all, List.foldl_append]

/-- Invariant of a log built by appending a whole list: the write cursor is
the append count modulo the capacity, the valid count saturates at the
capacity, and the slot read `j`-th by the read-out loop holds the `j`-th of
the last `min length capacity` appended entries. -/
theorem append_all_invariant (l : List log_entry_t) :
    (append_all l).ix_write = l.length % 10000 ∧
    (append_all l).num_valid = min l.length 10000 ∧
    ∀ j : Nat, j < min l.length 10000 →
      (append_all l).entries ((l.length + 10000 - min l.length 10000 + j) % 10000)
        = l.getD (l.length - min l.length 10000 + j) default := by
  induction l using List.reverseRecOn with
  | nil =>
    refine ⟨rfl, by simp [append_all, init_log], ?_⟩
    intro j hj
    simp at hj
  | append_singleton l e ih =>
    obtain ⟨ih1, ih2, ih3⟩ := ih
    rw [append_all_snoc]
    simp only [add_log, log_size_eq, List.length_append, List.length_singleton]
    refine ⟨?_, ?_, ?_⟩
    · rw [ih1]; omega
    · rw [ih2]; split <;> omega
    · intro j hj
      rw [ih1]
      rcases Nat.lt_or_ge l.length 10000 with hn | hn
      · have hmin : min (l.length + 1) 10000 = l.length + 1 := by omega
        rw [hmin] at hj ⊢
        rw [show l.length + 1 + 10000 - (l.length + 1) + j = 10000 + j from by omega]
        rw [show (10000 + j) % 10000 = j from by omega]
        by_cases hj2 : j = l.length
        · subst hj2
          rw [if_pos (by omega)]
          rw [show l.length + 1 - (l.length + 1) + l.length = l.length from by omega]
          rw [List.getD_append_right l [e] default l.length (le_refl _)]
          simp
        · rw [if_neg (by omega)]
          have h3 := ih3 j (by omega)
          rw [show l.length + 10000 - min l.length 10000 + j = 10000 + j from by omega] at h3
          rw [show (10000 + j) % 10000 = j from by omega] at h3
          rw [show l.length - min l.length 10000 + j = j from by omega] at h3
          rw [h3]
          rw [show l.length + 1 - (l.length + 1) + j = j from by omega]
          rw [List.getD_append l [e] default j (by omega)]
      · have hmin : min (l.length + 1) 10000 = 10000 := by omega
        have hmin2 : min l.length 10000 = 10000 := by omega
        rw [hmin] at hj ⊢
        rw [show l.length + 1 + 10000 - 10000 + j = l.length + 1 + j from by omega]
        by_cases hj2 : j = 9999
        · subst hj2
          rw [if_pos (by omega)]
          rw [show l.length + 1 - 10000 + 9999 = l.length from by omega]
          rw [List.getD_append_right l [e] default l.length (le_refl _)]
          simp
        · rw [if_neg (by omega)]
          have h3 := ih3 (j + 1) (by omega)
          rw [hmin2] at h3
          rw [show l.length + 10000 - 10000 + (j + 1) = l.length + 1 + j from by omega] at h3
          rw [h3]
          rw [show l.length - 10000 + (j + 1) = l.length + 1 - 10000 + j from by omega]
          rw [List.getD_append l [e] default _ (by omega)]

set_option maxRecDepth 4000 in
/-- Reading the log back after appending a list yields exactly the last
`capacity` entries (all of them when fewer), in append order. -/
theorem read_log_append_all (l : List log_entry_t) :
    read_log_entries (append_all l) = l.drop (l.length - EDM_LOG_SIZE) := by
  obtain ⟨ih1, ih2, ih3⟩ := append_all_invariant l
  apply List.ext_getElem
  · simp only [read_log_entries, List.length_map, List.length_range, List.length_drop,
      log_size_eq, ih2]
    omega
  · intro i h1 h2
    simp only [read_log_entries, List.length_map, List.length_range, ih2] at h1
    simp only [read_log_entries, List.getElem_map, List.getElem_range]
    have key : (append_all l).entries ((ix_read_start (append_all l) + i) % EDM_LOG_SIZE)
        = l.getD (l.length - EDM_LOG_SIZE + i) default := by
      rw [ix_read_start, ih1, ih2, log_size_eq]
      rw [show ((l.length % 10000 + 10000 - min l.length 10000) % 10000 + i) % 10000
          = (l.length + 10000 - min l.length 10000 + i) % 10000 from by omega]
      rw [ih3 i h1]
      rw [show l.length - min l.length 10000 + i = l.length - 10000 + i from by omega]
    rw [key]
    rw [List.getD_eq_getElem l default (by rw [log_size_eq]; omega)]
    rw [List.getElem_drop]

/-- C4: the ring buffer of capacity 10000 preserves `num_valid ≤ capacity`
under every append; appending `capacity + 1` entries leaves
`num_valid = capacity` with the read-out equal to the input minus its first
(evicted, oldest) entry; in general the read-out — whose first slot is
`(ix_write + capacity - num_valid) % capacity`, the C rendering of
`(write_index - num_valid) mod capacity` — yields exactly `num_valid`
entries in original append order; and the read-out is refused whenever the
log is actively recording. -/
theorem log_ring_buffer_fifo :
    (∀ (lg : edm_log_t) (e : log_entry_t),
      lg.num_valid ≤ EDM_LOG_SIZE → (add_log lg e).num_valid ≤ EDM_LOG_SIZE) ∧
    (∀ l : List log_entry_t, l.length = EDM_LOG_SIZE + 1 →
      (append_all l).num_valid = EDM_LOG_SIZE ∧
      read_log_entries (append_all l) = l.drop 1) ∧
    (∀ l : List log_entry_t,
      (read_log_entries (append_all l)).length = (append_all l).num_valid ∧
      read_log_entries (append_all l) = l.drop (l.length - EDM_LOG_SIZE)) ∧
    (∀ lg : edm_log_t, lg.active = true → read_log_output true lg = none) := by
  refine ⟨?_, ?_, ?_, ?_⟩
  · intro lg e h
    rw [log_size_eq] at h
    simp only [add_log, log_size_eq]
    split <;> omega
  · intro l hl
    obtain ⟨_, ih2, _⟩ := append_all_invariant l
    rw [log_size_eq] at hl
    constructor
    · rw [log_size_eq, ih2]; omega
    · rw [read_log_append_all]
      rw [show l.length - EDM_LOG_SIZE = 1 from by rw [log_size_eq]; omega]
  · intro l
    refine ⟨?_, read_log_append_all l⟩
    obtain ⟨_, ih2, _⟩ := append_all_invariant l
    simp [read_log_entries]
  · intro lg h
    simp [read_log_output, h]

/-- C4 witness: the invariant at the fresh log, and the overflow scenario on
a concrete list of `capacity + 1` identical entries. -/
theorem log_ring_buffer_fifo_witness :
    (init_log.num_valid ≤ EDM_LOG_SIZE ∧
      (add_log init_log default).num_valid ≤ EDM_LOG_SIZE) ∧
    ((List.replicate (EDM_LOG_SIZE + 1) (default : log_entry_t)).length = EDM_LOG_SIZE + 1 ∧
      (append_all (List.replicate (EDM_LOG_SIZE + 1) (default : log_entry_t))).num_valid
        = EDM_LOG_SIZE) ∧
    (({ init_log with active := true } : edm_log_t).active = true ∧
      read_log_output true { init_log with active := true } = none) :=
  ⟨⟨by decide, log_ring_buffer_fifo.1 init_log default (by decide)⟩,
   ⟨by simp, (log_ring_buffer_fifo.2.1 _ (by simp)).1⟩,
   ⟨rfl, log_ring_buffer_fifo.2.2.2 _ rfl⟩⟩

end SparkEDM
